import Mathlib

/-
Formal model of the 75-day fitness challenge app.

Two engines are embedded here, following the TypeScript sources:

* the pose-based rep-counting state machine
  (src/src/services/PoseDetectionService.ts, and the variant service in
  src/unnamed/part_000), modelled over the real numbers as an exact
  idealization of JS float arithmetic; and
* the daily challenge progression engine
  (src/src/store/slices/challengeSlice.ts), modelled computably over the
  integers, with ISO date strings represented by integer day numbers
  (the string-to-day-number map is injective, so string equality of dates
  coincides with integer equality of day numbers).

Timestamps are integers (milliseconds). Geometry that JS computes with
Math.sqrt / Math.acos / Math.atan2 is modelled with Real.sqrt,
Real.arccos and an atan2 function defined below; the one place where JS
float semantics matters (NaN from a zero-magnitude vector in the angle
formula) is modelled explicitly by a case split, as explained at
calculateAngle.
-/

/-- The four exercise types of the challenge. -/
inductive ExerciseType where
  | pushups
  | squats
  | situps
  | planks
deriving DecidableEq

/-- Exercise phase, from the `currentPhase` field of `ExerciseState`. -/
inductive Phase where
  | up
  | down
  | neutral
deriving DecidableEq

/-- One pose keypoint: `{x, y, confidence}` (PoseDetectionService.ts, lines 5-9). -/
structure PoseKeypoint where
  x : ℝ
  y : ℝ
  confidence : ℝ

/-- The 13 named keypoints of a pose frame (PoseDetectionService.ts, lines 12-26). -/
structure PoseKeypoints where
  nose : PoseKeypoint
  leftShoulder : PoseKeypoint
  rightShoulder : PoseKeypoint
  leftElbow : PoseKeypoint
  rightElbow : PoseKeypoint
  leftWrist : PoseKeypoint
  rightWrist : PoseKeypoint
  leftHip : PoseKeypoint
  rightHip : PoseKeypoint
  leftKnee : PoseKeypoint
  rightKnee : PoseKeypoint
  leftAnkle : PoseKeypoint
  rightAnkle : PoseKeypoint

/-- A pose frame (PoseDetectionService.ts, lines 11-28). -/
structure PoseDetection where
  keypoints : PoseKeypoints
  confidence : ℝ

/-- `calculateAngle` (PoseDetectionService.ts lines 346-360; the identical
function also appears in src/unnamed/part_000 lines 455-469).

The JS code computes `acos(dot / (mag1 * mag2)) * 180 / PI` and then maps
NaN to 0 (`isNaN(angle) ? 0 : angle`). Under exact real arithmetic the
acos argument is NaN exactly when `mag1 * mag2 = 0` (then `dot = 0` as
well, giving 0/0); when `mag1 * mag2 ≠ 0` Cauchy-Schwarz puts the ratio
in [-1, 1], where acos is defined. So the isNaN guard is modelled by the
`if mag1 * mag2 = 0` case split. -/
noncomputable def calculateAngle (point1 point2 point3 : PoseKeypoint) : ℝ :=
  let v1x := point1.x - point2.x
  let v1y := point1.y - point2.y
  let v2x := point3.x - point2.x
  let v2y := point3.y - point2.y
  let dot := v1x * v2x + v1y * v2y
  let mag1 := Real.sqrt (v1x * v1x + v1y * v1y)
  let mag2 := Real.sqrt (v2x * v2x + v2y * v2y)
  if mag1 * mag2 = 0 then 0
  else Real.arccos (dot / (mag1 * mag2)) * 180 / Real.pi

/-- If the vector from `point2` to `point1` (or to `point3`) has zero
coordinates, the angle is the defined fallback 0. -/
theorem calculateAngle_degenerate (p1 p2 p3 : PoseKeypoint)
    (h : (p1.x = p2.x ∧ p1.y = p2.y) ∨ (p3.x = p2.x ∧ p3.y = p2.y)) :
    calculateAngle p1 p2 p3 = 0 := by
  unfold calculateAngle
  rcases h with ⟨hx, hy⟩ | ⟨hx, hy⟩ <;>
    simp [hx, hy, Real.sqrt_zero]

/-- C7: for all points a, b, c, if the vector b→a or b→c has zero magnitude
(in particular when a = b or c = b), `calculateAngle` returns exactly 0
rather than an invalid number; being a total function of type ℝ it never
throws. -/
theorem C7_angle_degenerate (a b c : PoseKeypoint) (h : a = b ∨ c = b) :
    calculateAngle a b c = 0 := by
  rcases h with rfl | rfl
  · exact calculateAngle_degenerate _ _ _ (Or.inl ⟨rfl, rfl⟩)
  · exact calculateAngle_degenerate _ _ _ (Or.inr ⟨rfl, rfl⟩)

/-- Witness for C7 at a concrete degenerate input. -/
theorem C7_witness :
    calculateAngle ⟨3, 4, 0.9⟩ ⟨3, 4, 0.9⟩ ⟨10, 2, 0.8⟩ = 0 :=
  C7_angle_degenerate ⟨3, 4, 0.9⟩ ⟨3, 4, 0.9⟩ ⟨10, 2, 0.8⟩ (Or.inl rfl)

/-- JS `Math.atan2(y, x)` under exact real arithmetic (IEEE signed zeros
collapse to 0, landing in the final branch like `atan2(+0, +0) = 0`). -/
noncomputable def atan2 (y x : ℝ) : ℝ :=
  if 0 < x then Real.arctan (y / x)
  else if x < 0 then
    (if 0 ≤ y then Real.arctan (y / x) + Real.pi
     else Real.arctan (y / x) - Real.pi)
  else
    (if 0 < y then Real.pi / 2
     else if y < 0 then -(Real.pi / 2)
     else 0)

/-- Session state of the service in PoseDetectionService.ts (lines 32-37).
`isValid` is a JS boolean computed from real comparisons; it is modelled
as the corresponding proposition. -/
structure ExerciseState where
  repCount : ℕ
  currentPhase : Phase
  lastPhaseChange : ℤ
  isValid : Prop

namespace Pose

/-- `processPushups` (PoseDetectionService.ts lines 150-214): average elbow
angle, 800 ms debounce, down below 120, up (rep counted) above 140. -/
noncomputable def processPushups (now : ℤ) (pose : PoseDetection)
    (state : ExerciseState) : ExerciseState :=
  let leftArmAngle := calculateAngle pose.keypoints.leftShoulder
    pose.keypoints.leftElbow pose.keypoints.leftWrist
  let rightArmAngle := calculateAngle pose.keypoints.rightShoulder
    pose.keypoints.rightElbow pose.keypoints.rightWrist
  let avgArmAngle := (leftArmAngle + rightArmAngle) / 2
  if now - state.lastPhaseChange < 800 then state
  else if avgArmAngle < 120 ∧ state.currentPhase ≠ Phase.down then
    { state with
      currentPhase := Phase.down
      lastPhaseChange := now
      isValid := pose.confidence > 0.7 }
  else if avgArmAngle > 140 ∧ state.currentPhase = Phase.down then
    { state with
      repCount := state.repCount + 1
      currentPhase := Phase.up
      lastPhaseChange := now
      isValid := pose.confidence > 0.7 }
  else
    { state with isValid := pose.confidence > 0.7 }

/-- `processSquats` (PoseDetectionService.ts lines 216-257): average knee
angle, 600 ms debounce, down below 100, up (rep counted) above 160. -/
noncomputable def processSquats (now : ℤ) (pose : PoseDetection)
    (state : ExerciseState) : ExerciseState :=
  let leftKneeAngle := calculateAngle pose.keypoints.leftHip
    pose.keypoints.leftKnee pose.keypoints.leftAnkle
  let rightKneeAngle := calculateAngle pose.keypoints.rightHip
    pose.keypoints.rightKnee pose.keypoints.rightAnkle
  let avgKneeAngle := (leftKneeAngle + rightKneeAngle) / 2
  if now - state.lastPhaseChange < 600 then state
  else if avgKneeAngle < 100 ∧ state.currentPhase ≠ Phase.down then
    { state with
      currentPhase := Phase.down
      lastPhaseChange := now
      isValid := pose.confidence > 0.7 }
  else if avgKneeAngle > 160 ∧ state.currentPhase = Phase.down then
    { state with
      repCount := state.repCount + 1
      currentPhase := Phase.up
      lastPhaseChange := now
      isValid := pose.confidence > 0.7 }
  else
    { state with isValid := pose.confidence > 0.7 }

/-- Torso angle of `processSitups` (PoseDetectionService.ts lines 266-284):
`abs(atan2(shoulderMid.x - hipMid.x, shoulderMid.y - hipMid.y) * 180 / PI)`. -/
noncomputable def torsoAngle (pose : PoseDetection) : ℝ :=
  let shoulderMidX := (pose.keypoints.leftShoulder.x + pose.keypoints.rightShoulder.x) / 2
  let shoulderMidY := (pose.keypoints.leftShoulder.y + pose.keypoints.rightShoulder.y) / 2
  let hipMidX := (pose.keypoints.leftHip.x + pose.keypoints.rightHip.x) / 2
  let hipMidY := (pose.keypoints.leftHip.y + pose.keypoints.rightHip.y) / 2
  |atan2 (shoulderMidX - hipMidX) (shoulderMidY - hipMidY) * 180 / Real.pi|

/-- `processSitups` (PoseDetectionService.ts lines 259-315): torso angle,
700 ms debounce, up above 45, down (rep counted) below 20. -/
noncomputable def processSitups (now : ℤ) (pose : PoseDetection)
    (state : ExerciseState) : ExerciseState :=
  if now - state.lastPhaseChange < 700 then state
  else if torsoAngle pose > 45 ∧ state.currentPhase ≠ Phase.up then
    { state with
      currentPhase := Phase.up
      lastPhaseChange := now
      isValid := pose.confidence > 0.7 }
  else if torsoAngle pose < 20 ∧ state.currentPhase = Phase.up then
    { state with
      repCount := state.repCount + 1
      currentPhase := Phase.down
      lastPhaseChange := now
      isValid := pose.confidence > 0.7 }
  else
    { state with isValid := pose.confidence > 0.7 }

/-- `processPlanks` (PoseDetectionService.ts lines 317-343): no phase or
rep change, only a validity judgment from body alignment. -/
noncomputable def processPlanks (pose : PoseDetection)
    (state : ExerciseState) : ExerciseState :=
  let shoulderY := (pose.keypoints.leftShoulder.y + pose.keypoints.rightShoulder.y) / 2
  let hipY := (pose.keypoints.leftHip.y + pose.keypoints.rightHip.y) / 2
  let ankleY := (pose.keypoints.leftAnkle.y + pose.keypoints.rightAnkle.y) / 2
  let bodyAlignment := |shoulderY - hipY| + |hipY - ankleY|
  { state with isValid := bodyAlignment < 50 ∧ pose.confidence > 0.7 }

/-- The name used in the thrown error message of `processExercise`. -/
def exerciseName : ExerciseType → String
  | ExerciseType.pushups => "pushups"
  | ExerciseType.squats => "squats"
  | ExerciseType.situps => "situps"
  | ExerciseType.planks => "planks"

/-- `processExercise` (PoseDetectionService.ts lines 127-148). The session
map is `exerciseStates`; a missing session THROWS
(`throw new Error(...)`, line 133), modelled as `Except.error` with the
message text of the source. -/
noncomputable def processExercise (states : ExerciseType → Option ExerciseState)
    (exerciseType : ExerciseType) (now : ℤ) (pose : PoseDetection) :
    Except String ExerciseState :=
  match states exerciseType with
  | none => Except.error ("Exercise " ++ exerciseName exerciseType ++ " not started")
  | some state =>
    Except.ok (match exerciseType with
      | ExerciseType.pushups => processPushups now pose state
      | ExerciseType.squats => processSquats now pose state
      | ExerciseType.situps => processSitups now pose state
      | ExerciseType.planks => processPlanks pose state)

end Pose

namespace Sim

/-- Session state of the variant service in src/unnamed/part_000
(lines 30-36); it adds a `formFeedback` string. -/
structure ExerciseState where
  repCount : ℕ
  currentPhase : Phase
  lastPhaseChange : ℤ
  isValid : Prop
  formFeedback : String

/-- `processPushups` of src/unnamed/part_000 (lines 222-293): 800 ms
debounce, down below 110, up (rep counted) above 150, form validity
requires the angle strictly between 60 and 180. -/
noncomputable def processPushups (now : ℤ) (pose : PoseDetection)
    (state : ExerciseState) : ExerciseState :=
  let leftArmAngle := calculateAngle pose.keypoints.leftShoulder
    pose.keypoints.leftElbow pose.keypoints.leftWrist
  let rightArmAngle := calculateAngle pose.keypoints.rightShoulder
    pose.keypoints.rightElbow pose.keypoints.rightWrist
  let avgArmAngle := (leftArmAngle + rightArmAngle) / 2
  if now - state.lastPhaseChange < 800 then state
  else
    let isValidForm := pose.confidence > 0.7 ∧ avgArmAngle > 60 ∧ avgArmAngle < 180
    if avgArmAngle < 110 ∧ state.currentPhase ≠ Phase.down then
      { state with
        currentPhase := Phase.down
        lastPhaseChange := now
        isValid := isValidForm
        formFeedback := "Good! Now push up! 💪" }
    else if avgArmAngle > 150 ∧ state.currentPhase = Phase.down then
      { state with
        repCount := state.repCount + 1
        currentPhase := Phase.up
        lastPhaseChange := now
        isValid := isValidForm
        formFeedback := "Perfect push-up #" ++ toString (state.repCount + 1) ++ "! 🔥" }
    else
      { state with isValid := isValidForm }

/-- `processSquats` of src/unnamed/part_000 (lines 295-350): 1000 ms
debounce, down below 120, up (rep counted) above 160. -/
noncomputable def processSquats (now : ℤ) (pose : PoseDetection)
    (state : ExerciseState) : ExerciseState :=
  let leftKneeAngle := calculateAngle pose.keypoints.leftHip
    pose.keypoints.leftKnee pose.keypoints.leftAnkle
  let rightKneeAngle := calculateAngle pose.keypoints.rightHip
    pose.keypoints.rightKnee pose.keypoints.rightAnkle
  let avgKneeAngle := (leftKneeAngle + rightKneeAngle) / 2
  if now - state.lastPhaseChange < 1000 then state
  else
    let isValidForm := pose.confidence > 0.7 ∧ avgKneeAngle > 80 ∧ avgKneeAngle < 180
    if avgKneeAngle < 120 ∧ state.currentPhase ≠ Phase.down then
      { state with
        currentPhase := Phase.down
        lastPhaseChange := now
        isValid := isValidForm
        formFeedback := "Great squat! Now stand up! 🦵" }
    else if avgKneeAngle > 160 ∧ state.currentPhase = Phase.down then
      { state with
        repCount := state.repCount + 1
        currentPhase := Phase.up
        lastPhaseChange := now
        isValid := isValidForm
        formFeedback := "Excellent squat #" ++ toString (state.repCount + 1) ++ "! 🚀" }
    else
      { state with isValid := isValidForm }

/-- `processSitups` of src/unnamed/part_000 (lines 352-421): 900 ms
debounce, up above 35, down (rep counted) below 15; the torso angle is
computed exactly as in the main service. -/
noncomputable def processSitups (now : ℤ) (pose : PoseDetection)
    (state : ExerciseState) : ExerciseState :=
  if now - state.lastPhaseChange < 900 then state
  else
    let isValidForm := pose.confidence > 0.7 ∧ Pose.torsoAngle pose ≥ 0 ∧ Pose.torsoAngle pose ≤ 90
    if Pose.torsoAngle pose > 35 ∧ state.currentPhase ≠ Phase.up then
      { state with
        currentPhase := Phase.up
        lastPhaseChange := now
        isValid := isValidForm
        formFeedback := "Perfect! Now lower down slowly! 🏋️" }
    else if Pose.torsoAngle pose < 15 ∧ state.currentPhase = Phase.up then
      { state with
        repCount := state.repCount + 1
        currentPhase := Phase.down
        lastPhaseChange := now
        isValid := isValidForm
        formFeedback := "Amazing sit-up #" ++ toString (state.repCount + 1) ++ "! ✨" }
    else
      { state with isValid := isValidForm }

/-- `processPlanks` of src/unnamed/part_000 (lines 423-453). -/
noncomputable def processPlanks (pose : PoseDetection)
    (state : ExerciseState) : ExerciseState :=
  let shoulderY := (pose.keypoints.leftShoulder.y + pose.keypoints.rightShoulder.y) / 2
  let hipY := (pose.keypoints.leftHip.y + pose.keypoints.rightHip.y) / 2
  let ankleY := (pose.keypoints.leftAnkle.y + pose.keypoints.rightAnkle.y) / 2
  let bodyAlignment := |shoulderY - hipY| + |hipY - ankleY|
  let isGoodForm := bodyAlignment < 40
  { state with
    isValid := isGoodForm ∧ pose.confidence > 0.7
    formFeedback := if bodyAlignment < 40 then "Perfect plank form! Hold it! 🔥"
      else "Keep your body straight!" }

/-- `processExercisePose` of src/unnamed/part_000 (lines 203-220). -/
noncomputable def processExercisePose (exerciseType : ExerciseType) (now : ℤ)
    (pose : PoseDetection) (state : ExerciseState) : ExerciseState :=
  match exerciseType with
  | ExerciseType.pushups => processPushups now pose state
  | ExerciseType.squats => processSquats now pose state
  | ExerciseType.situps => processSitups now pose state
  | ExerciseType.planks => processPlanks pose state

/-- `detectExercise` of src/unnamed/part_000 (lines 79-100). The simulated
pose frame it draws internally (time- and randomness-driven) is passed in
as the `pose` parameter. Returns the updated session map together with the
payload of the `onRepDetected` callback when the rep count increased, or
`none` when the callback is not invoked. A missing session returns
immediately with everything unchanged. -/
noncomputable def detectExercise (states : ExerciseType → Option ExerciseState)
    (exerciseType : ExerciseType) (now : ℤ) (pose : PoseDetection) :
    (ExerciseType → Option ExerciseState) × Option (ℕ × String) :=
  match states exerciseType with
  | none => (states, none)
  | some state =>
    let updatedState := processExercisePose exerciseType now pose state
    (fun t => if t = exerciseType then some updatedState else states t,
     if state.repCount < updatedState.repCount
     then some (updatedState.repCount, updatedState.formFeedback)
     else none)

end Sim

/-- A keypoint at concrete coordinates with confidence 1. -/
noncomputable def kp (a b : ℝ) : PoseKeypoint := ⟨a, b, 1⟩

/-- A concrete pose frame with all keypoints at the origin. -/
noncomputable def poseFlat : PoseDetection :=
  { keypoints :=
      { nose := kp 0 0, leftShoulder := kp 0 0, rightShoulder := kp 0 0
        leftElbow := kp 0 0, rightElbow := kp 0 0, leftWrist := kp 0 0
        rightWrist := kp 0 0, leftHip := kp 0 0, rightHip := kp 0 0
        leftKnee := kp 0 0, rightKnee := kp 0 0, leftAnkle := kp 0 0
        rightAnkle := kp 0 0 }
    confidence := 1 }

/-- A concrete pose frame with both shoulders at (1, 0) and every other
keypoint at the origin: all elbow and knee angles are the degenerate
fallback 0, and the torso vector is horizontal (torso angle 90). -/
noncomputable def poseShift : PoseDetection :=
  { keypoints :=
      { nose := kp 0 0, leftShoulder := kp 1 0, rightShoulder := kp 1 0
        leftElbow := kp 0 0, rightElbow := kp 0 0, leftWrist := kp 0 0
        rightWrist := kp 0 0, leftHip := kp 0 0, rightHip := kp 0 0
        leftKnee := kp 0 0, rightKnee := kp 0 0, leftAnkle := kp 0 0
        rightAnkle := kp 0 0 }
    confidence := 1 }

/-- C3 counterexample: `processExercise` of PoseDetectionService.ts with no
active session is NOT a non-throwing no-op — it throws
(`throw new Error(...)`, line 133), modelled as an `Except.error` result,
shown here at a concrete input. -/
theorem C3_counterexample :
    Pose.processExercise (fun _ => none) ExerciseType.pushups 0 poseFlat =
      Except.error "Exercise pushups not started" := rfl

/-- C3 (amended): processing a frame for an exercise type with no active
session is a silent no-op in `detectExercise` of src/unnamed/part_000
(the session map is unchanged and no rep callback fires), while
`processExercise` of PoseDetectionService.ts throws an Error whose message
reports the exercise as not started, instead of returning a state. -/
theorem C3_missing_session (states : ExerciseType → Option Sim.ExerciseState)
    (states2 : ExerciseType → Option ExerciseState) (ex ex2 : ExerciseType)
    (now now2 : ℤ) (pose pose2 : PoseDetection)
    (h : states ex = none) (h2 : states2 ex2 = none) :
    Sim.detectExercise states ex now pose = (states, none) ∧
    Pose.processExercise states2 ex2 now2 pose2 =
      Except.error ("Exercise " ++ Pose.exerciseName ex2 ++ " not started") := by
  constructor
  · unfold Sim.detectExercise
    rw [h]
  · unfold Pose.processExercise
    rw [h2]

/-- Witness for C3 at concrete inputs. -/
theorem C3_missing_session_witness :
    Sim.detectExercise (fun _ => none) ExerciseType.squats 5 poseFlat =
      ((fun _ => none), none) ∧
    Pose.processExercise (fun _ => none) ExerciseType.squats 5 poseFlat =
      Except.error ("Exercise " ++ Pose.exerciseName ExerciseType.squats ++ " not started") :=
  C3_missing_session (fun _ => none) (fun _ => none) ExerciseType.squats
    ExerciseType.squats 5 5 poseFlat poseFlat rfl rfl

namespace Pose

/-- A frame inside the 800 ms pushup debounce window leaves the state
untouched (PoseDetectionService.ts lines 181-183). -/
theorem processPushups_debounce (now : ℤ) (pose : PoseDetection) (s : ExerciseState)
    (h : now - s.lastPhaseChange < 800) : processPushups now pose s = s := by
  simp only [processPushups]
  rw [if_pos h]

/-- Any pushup phase change stamps `lastPhaseChange` with the frame time. -/
theorem processPushups_phase_lastChange (now : ℤ) (pose : PoseDetection) (s : ExerciseState) :
    (processPushups now pose s).currentPhase ≠ s.currentPhase →
    (processPushups now pose s).lastPhaseChange = now := by
  simp only [processPushups]
  split_ifs <;> intro h <;> first | rfl | exact absurd rfl h

/-- One pushup frame changes `repCount` by at most one, upward. -/
theorem processPushups_repCount_le (now : ℤ) (pose : PoseDetection) (s : ExerciseState) :
    s.repCount ≤ (processPushups now pose s).repCount ∧
    (processPushups now pose s).repCount ≤ s.repCount + 1 := by
  simp only [processPushups]
  split_ifs <;> exact ⟨by simp, by simp⟩

/-- A pushup rep is credited exactly on a down-to-up transition. -/
theorem processPushups_rep_iff (now : ℤ) (pose : PoseDetection) (s : ExerciseState) :
    (processPushups now pose s).repCount = s.repCount + 1 ↔
      s.currentPhase = Phase.down ∧ (processPushups now pose s).currentPhase = Phase.up := by
  simp only [processPushups]
  split_ifs with h1 h2 h3
  · constructor
    · intro h; exact absurd h (by omega)
    · rintro ⟨hd, hu⟩; rw [hd] at hu; exact Phase.noConfusion hu
  · constructor
    · intro h
      have h4 : s.repCount = s.repCount + 1 := h
      exact absurd h4 (by omega)
    · rintro ⟨hd, hu⟩
      exact hu.elim
  · constructor
    · intro _; exact ⟨h3.2, rfl⟩
    · intro _; rfl
  · constructor
    · intro h
      have h4 : s.repCount = s.repCount + 1 := h
      exact absurd h4 (by omega)
    · rintro ⟨hd, hu⟩
      have h4 : s.currentPhase = Phase.up := hu
      rw [hd] at h4
      exact Phase.noConfusion h4

/-- A frame inside the 600 ms squat debounce window leaves the state
untouched (PoseDetectionService.ts lines 231-233). -/
theorem processSquats_debounce (now : ℤ) (pose : PoseDetection) (s : ExerciseState)
    (h : now - s.lastPhaseChange < 600) : processSquats now pose s = s := by
  simp only [processSquats]
  rw [if_pos h]

/-- Any squat phase change stamps `lastPhaseChange` with the frame time. -/
theorem processSquats_phase_lastChange (now : ℤ) (pose : PoseDetection) (s : ExerciseState) :
    (processSquats now pose s).currentPhase ≠ s.currentPhase →
    (processSquats now pose s).lastPhaseChange = now := by
  simp only [processSquats]
  split_ifs <;> intro h <;> first | rfl | exact absurd rfl h

/-- One squat frame changes `repCount` by at most one, upward. -/
theorem processSquats_repCount_le (now : ℤ) (pose : PoseDetection) (s : ExerciseState) :
    s.repCount ≤ (processSquats now pose s).repCount ∧
    (processSquats now pose s).repCount ≤ s.repCount + 1 := by
  simp only [processSquats]
  split_ifs <;> exact ⟨by simp, by simp⟩

/-- A squat rep is credited exactly on a down-to-up transition. -/
theorem processSquats_rep_iff (now : ℤ) (pose : PoseDetection) (s : ExerciseState) :
    (processSquats now pose s).repCount = s.repCount + 1 ↔
      s.currentPhase = Phase.down ∧ (processSquats now pose s).currentPhase = Phase.up := by
  simp only [processSquats]
  split_ifs with h1 h2 h3
  · constructor
    · intro h; exact absurd h (by omega)
    · rintro ⟨hd, hu⟩; rw [hd] at hu; exact Phase.noConfusion hu
  · constructor
    · intro h
      have h4 : s.repCount = s.repCount + 1 := h
      exact absurd h4 (by omega)
    · rintro ⟨hd, hu⟩
      exact hu.elim
  · constructor
    · intro _; exact ⟨h3.2, rfl⟩
    · intro _; rfl
  · constructor
    · intro h
      have h4 : s.repCount = s.repCount + 1 := h
      exact absurd h4 (by omega)
    · rintro ⟨hd, hu⟩
      have h4 : s.currentPhase = Phase.up := hu
      rw [hd] at h4
      exact Phase.noConfusion h4

/-- A frame inside the 700 ms situp debounce window leaves the state
untouched (PoseDetectionService.ts lines 289-291). -/
theorem processSitups_debounce (now : ℤ) (pose : PoseDetection) (s : ExerciseState)
    (h : now - s.lastPhaseChange < 700) : processSitups now pose s = s := by
  simp only [processSitups]
  rw [if_pos h]

/-- Any situp phase change stamps `lastPhaseChange` with the frame time. -/
theorem processSitups_phase_lastChange (now : ℤ) (pose : PoseDetection) (s : ExerciseState) :
    (processSitups now pose s).currentPhase ≠ s.currentPhase →
    (processSitups now pose s).lastPhaseChange = now := by
  simp only [processSitups]
  split_ifs <;> intro h <;> first | rfl | exact absurd rfl h

/-- One situp frame changes `repCount` by at most one, upward. -/
theorem processSitups_repCount_le (now : ℤ) (pose : PoseDetection) (s : ExerciseState) :
    s.repCount ≤ (processSitups now pose s).repCount ∧
    (processSitups now pose s).repCount ≤ s.repCount + 1 := by
  simp only [processSitups]
  split_ifs <;> exact ⟨by simp, by simp⟩

/-- A situp rep is credited exactly on an up-to-down transition. -/
theorem processSitups_rep_iff (now : ℤ) (pose : PoseDetection) (s : ExerciseState) :
    (processSitups now pose s).repCount = s.repCount + 1 ↔
      s.currentPhase = Phase.up ∧ (processSitups now pose s).currentPhase = Phase.down := by
  simp only [processSitups]
  split_ifs with h1 h2 h3
  · constructor
    · intro h; exact absurd h (by omega)
    · rintro ⟨hd, hu⟩; rw [hd] at hu; exact Phase.noConfusion hu
  · constructor
    · intro h
      have h4 : s.repCount = s.repCount + 1 := h
      exact absurd h4 (by omega)
    · rintro ⟨hd, hu⟩
      exact hu.elim
  · constructor
    · intro _; exact ⟨h3.2, rfl⟩
    · intro _; rfl
  · constructor
    · intro h
      have h4 : s.repCount = s.repCount + 1 := h
      exact absurd h4 (by omega)
    · rintro ⟨hd, hu⟩
      have h4 : s.currentPhase = Phase.down := hu
      rw [hd] at h4
      exact Phase.noConfusion h4

end Pose

namespace Sim

/-- A frame inside the 800 ms pushup debounce window leaves the state
untouched (src/unnamed/part_000 lines 252-254). -/
theorem simProcessPushups_debounce (now : ℤ) (pose : PoseDetection) (s : ExerciseState)
    (h : now - s.lastPhaseChange < 800) : processPushups now pose s = s := by
  simp only [processPushups]
  rw [if_pos h]

/-- Any pushup phase change stamps `lastPhaseChange` with the frame time
(variant service). -/
theorem simProcessPushups_phase_lastChange (now : ℤ) (pose : PoseDetection) (s : ExerciseState) :
    (processPushups now pose s).currentPhase ≠ s.currentPhase →
    (processPushups now pose s).lastPhaseChange = now := by
  simp only [processPushups]
  split_ifs <;> intro h <;> first | rfl | exact absurd rfl h

/-- A situp rep is credited exactly on an up-to-down transition
(variant service, src/unnamed/part_000 lines 395-409). -/
theorem simProcessSitups_rep_iff (now : ℤ) (pose : PoseDetection) (s : ExerciseState) :
    (processSitups now pose s).repCount = s.repCount + 1 ↔
      s.currentPhase = Phase.up ∧ (processSitups now pose s).currentPhase = Phase.down := by
  simp only [processSitups]
  split_ifs with h1 h2 h3
  · constructor
    · intro h; exact absurd h (by omega)
    · rintro ⟨hd, hu⟩; rw [hd] at hu; exact Phase.noConfusion hu
  · constructor
    · intro h
      have h4 : s.repCount = s.repCount + 1 := h
      exact absurd h4 (by omega)
    · rintro ⟨hd, hu⟩
      exact hu.elim
  · constructor
    · intro _; exact ⟨h3.2, rfl⟩
    · intro _; rfl
  · constructor
    · intro h
      have h4 : s.repCount = s.repCount + 1 := h
      exact absurd h4 (by omega)
    · rintro ⟨hd, hu⟩
      have h4 : s.currentPhase = Phase.down := hu
      rw [hd] at h4
      exact Phase.noConfusion h4

/-- One situp frame changes `repCount` by at most one, upward
(variant service). -/
theorem simProcessSitups_repCount_le (now : ℤ) (pose : PoseDetection) (s : ExerciseState) :
    s.repCount ≤ (processSitups now pose s).repCount ∧
    (processSitups now pose s).repCount ≤ s.repCount + 1 := by
  simp only [processSitups]
  split_ifs <;> exact ⟨by simp, by simp⟩

end Sim

/-- C5: for every rep-counted session, a frame arriving less than the
debounce interval after `lastPhaseChange` is ignored — the state is
returned unchanged (pushups 800 ms, squats 600 ms, situps 700 ms in
PoseDetectionService.ts; pushups 800 ms in the variant service of
src/unnamed/part_000); and two frames less than the debounce interval
apart never yield two phase changes: if the first frame changed the
phase, the second frame returns the session state of the first,
unchanged. -/
theorem C5_debounce :
    (∀ (now : ℤ) (pose : PoseDetection) (s : ExerciseState),
      now - s.lastPhaseChange < 800 → Pose.processPushups now pose s = s) ∧
    (∀ (now : ℤ) (pose : PoseDetection) (s : ExerciseState),
      now - s.lastPhaseChange < 600 → Pose.processSquats now pose s = s) ∧
    (∀ (now : ℤ) (pose : PoseDetection) (s : ExerciseState),
      now - s.lastPhaseChange < 700 → Pose.processSitups now pose s = s) ∧
    (∀ (now : ℤ) (pose : PoseDetection) (s : Sim.ExerciseState),
      now - s.lastPhaseChange < 800 → Sim.processPushups now pose s = s) ∧
    (∀ (t1 t2 : ℤ) (pose1 pose2 : PoseDetection) (s : ExerciseState),
      t2 - t1 < 800 →
      (Pose.processPushups t1 pose1 s).currentPhase ≠ s.currentPhase →
      Pose.processPushups t2 pose2 (Pose.processPushups t1 pose1 s) =
        Pose.processPushups t1 pose1 s) ∧
    (∀ (t1 t2 : ℤ) (pose1 pose2 : PoseDetection) (s : ExerciseState),
      t2 - t1 < 600 →
      (Pose.processSquats t1 pose1 s).currentPhase ≠ s.currentPhase →
      Pose.processSquats t2 pose2 (Pose.processSquats t1 pose1 s) =
        Pose.processSquats t1 pose1 s) ∧
    (∀ (t1 t2 : ℤ) (pose1 pose2 : PoseDetection) (s : ExerciseState),
      t2 - t1 < 700 →
      (Pose.processSitups t1 pose1 s).currentPhase ≠ s.currentPhase →
      Pose.processSitups t2 pose2 (Pose.processSitups t1 pose1 s) =
        Pose.processSitups t1 pose1 s) ∧
    (∀ (t1 t2 : ℤ) (pose1 pose2 : PoseDetection) (s : Sim.ExerciseState),
      t2 - t1 < 800 →
      (Sim.processPushups t1 pose1 s).currentPhase ≠ s.currentPhase →
      Sim.processPushups t2 pose2 (Sim.processPushups t1 pose1 s) =
        Sim.processPushups t1 pose1 s) := by
  refine ⟨Pose.processPushups_debounce, Pose.processSquats_debounce,
    Pose.processSitups_debounce, Sim.simProcessPushups_debounce, ?_, ?_, ?_, ?_⟩
  · intro t1 t2 pose1 pose2 s hlt hph
    apply Pose.processPushups_debounce
    rw [Pose.processPushups_phase_lastChange t1 pose1 s hph]
    exact hlt
  · intro t1 t2 pose1 pose2 s hlt hph
    apply Pose.processSquats_debounce
    rw [Pose.processSquats_phase_lastChange t1 pose1 s hph]
    exact hlt
  · intro t1 t2 pose1 pose2 s hlt hph
    apply Pose.processSitups_debounce
    rw [Pose.processSitups_phase_lastChange t1 pose1 s hph]
    exact hlt
  · intro t1 t2 pose1 pose2 s hlt hph
    apply Sim.simProcessPushups_debounce
    rw [Sim.simProcessPushups_phase_lastChange t1 pose1 s hph]
    exact hlt

/-- C6: `repCount` is non-decreasing (stated per step for each rep-counted
processor of PoseDetectionService.ts and for any sequence of pushup
frames), each single call increases it by at most 1, and it increases by
exactly 1 precisely on a qualifying transition out of the counted phase —
down-to-up for pushups and squats, up-to-down for situps (also in the
variant service of src/unnamed/part_000) — never on a transition into
that phase. -/
theorem C6_rep_monotonicity :
    (∀ (now : ℤ) (pose : PoseDetection) (s : ExerciseState),
      s.repCount ≤ (Pose.processPushups now pose s).repCount ∧
      (Pose.processPushups now pose s).repCount ≤ s.repCount + 1) ∧
    (∀ (now : ℤ) (pose : PoseDetection) (s : ExerciseState),
      (Pose.processPushups now pose s).repCount = s.repCount + 1 ↔
        s.currentPhase = Phase.down ∧
        (Pose.processPushups now pose s).currentPhase = Phase.up) ∧
    (∀ (now : ℤ) (pose : PoseDetection) (s : ExerciseState),
      s.repCount ≤ (Pose.processSquats now pose s).repCount ∧
      (Pose.processSquats now pose s).repCount ≤ s.repCount + 1) ∧
    (∀ (now : ℤ) (pose : PoseDetection) (s : ExerciseState),
      (Pose.processSquats now pose s).repCount = s.repCount + 1 ↔
        s.currentPhase = Phase.down ∧
        (Pose.processSquats now pose s).currentPhase = Phase.up) ∧
    (∀ (now : ℤ) (pose : PoseDetection) (s : ExerciseState),
      s.repCount ≤ (Pose.processSitups now pose s).repCount ∧
      (Pose.processSitups now pose s).repCount ≤ s.repCount + 1) ∧
    (∀ (now : ℤ) (pose : PoseDetection) (s : ExerciseState),
      (Pose.processSitups now pose s).repCount = s.repCount + 1 ↔
        s.currentPhase = Phase.up ∧
        (Pose.processSitups now pose s).currentPhase = Phase.down) ∧
    (∀ (now : ℤ) (pose : PoseDetection) (s : Sim.ExerciseState),
      (Sim.processSitups now pose s).repCount = s.repCount + 1 ↔
        s.currentPhase = Phase.up ∧
        (Sim.processSitups now pose s).currentPhase = Phase.down) ∧
    (∀ (frames : List (ℤ × PoseDetection)) (s : ExerciseState),
      s.repCount ≤
        (frames.foldl (fun st fp => Pose.processPushups fp.1 fp.2 st) s).repCount) := by
  refine ⟨Pose.processPushups_repCount_le, Pose.processPushups_rep_iff,
    Pose.processSquats_repCount_le, Pose.processSquats_rep_iff,
    Pose.processSitups_repCount_le, Pose.processSitups_rep_iff,
    Sim.simProcessSitups_rep_iff, ?_⟩
  intro frames
  induction frames with
  | nil => intro s; exact le_refl _
  | cons fp rest ih =>
    intro s
    exact le_trans (Pose.processPushups_repCount_le fp.1 fp.2 s).1 (ih _)

/-- A fresh session state as `startExercise` creates it, at time 0
(`repCount = 0`, `neutral`, `isValid = false` modelled as a true-free
proposition is not needed for the claims; `True` keeps the witness
states concrete). -/
def es0 : ExerciseState := ⟨0, Phase.neutral, 0, True⟩

/-- A fresh session state of the variant service, at time 0. -/
def es0Sim : Sim.ExerciseState :=
  ⟨0, Phase.neutral, 0, True, "Position yourself and start exercising!"⟩

/-- `atan2 1 0` is a right angle. -/
theorem atan2_one_zero : atan2 1 0 = Real.pi / 2 := by
  unfold atan2
  norm_num

/-- The torso angle of the concrete frame `poseShift` is 90 degrees. -/
theorem torsoAngle_poseShift : Pose.torsoAngle poseShift = 90 := by
  unfold Pose.torsoAngle poseShift kp
  norm_num [atan2_one_zero]
  rw [abs_of_nonneg (by positivity)]
  field_simp
  ring

/-- Left elbow angle of `poseShift` is the degenerate fallback 0. -/
theorem angle_poseShift_leftArm :
    calculateAngle poseShift.keypoints.leftShoulder poseShift.keypoints.leftElbow
      poseShift.keypoints.leftWrist = 0 :=
  calculateAngle_degenerate _ _ _ (Or.inr ⟨rfl, rfl⟩)

/-- Right elbow angle of `poseShift` is the degenerate fallback 0. -/
theorem angle_poseShift_rightArm :
    calculateAngle poseShift.keypoints.rightShoulder poseShift.keypoints.rightElbow
      poseShift.keypoints.rightWrist = 0 :=
  calculateAngle_degenerate _ _ _ (Or.inr ⟨rfl, rfl⟩)

/-- Left knee angle of `poseShift` is the degenerate fallback 0. -/
theorem angle_poseShift_leftKnee :
    calculateAngle poseShift.keypoints.leftHip poseShift.keypoints.leftKnee
      poseShift.keypoints.leftAnkle = 0 :=
  calculateAngle_degenerate _ _ _ (Or.inl ⟨rfl, rfl⟩)

/-- Right knee angle of `poseShift` is the degenerate fallback 0. -/
theorem angle_poseShift_rightKnee :
    calculateAngle poseShift.keypoints.rightHip poseShift.keypoints.rightKnee
      poseShift.keypoints.rightAnkle = 0 :=
  calculateAngle_degenerate _ _ _ (Or.inl ⟨rfl, rfl⟩)

/-- On the fresh state, frame `poseShift` at time 1000 enters the pushup
down phase. -/
theorem eval_pushups_phase :
    (Pose.processPushups 1000 poseShift es0).currentPhase = Phase.down := by
  norm_num [Pose.processPushups, angle_poseShift_leftArm, angle_poseShift_rightArm, es0]
  rw [if_neg (by decide)]

/-- On the fresh state, frame `poseShift` at time 1000 enters the squat
down phase. -/
theorem eval_squats_phase :
    (Pose.processSquats 1000 poseShift es0).currentPhase = Phase.down := by
  norm_num [Pose.processSquats, angle_poseShift_leftKnee, angle_poseShift_rightKnee, es0]
  rw [if_neg (by decide)]

/-- On the fresh state, frame `poseShift` at time 1000 enters the situp
up phase. -/
theorem eval_situps_phase :
    (Pose.processSitups 1000 poseShift es0).currentPhase = Phase.up := by
  norm_num [Pose.processSitups, torsoAngle_poseShift, es0]
  rw [if_neg (by decide)]

/-- On the fresh state, frame `poseShift` at time 1000 enters the pushup
down phase of the variant service. -/
theorem eval_sim_pushups_phase :
    (Sim.processPushups 1000 poseShift es0Sim).currentPhase = Phase.down := by
  norm_num [Sim.processPushups, angle_poseShift_leftArm, angle_poseShift_rightArm, es0Sim]
  rw [if_neg (by decide)]

/-- Witness for C5 at concrete inputs: a frame 100 ms into a fresh session
is ignored by every processor, and after a phase change at time 1000 a
second frame at time 1500 leaves the state of the first unchanged. -/
theorem C5_witness :
    Pose.processPushups 100 poseShift es0 = es0 ∧
    Pose.processSquats 100 poseShift es0 = es0 ∧
    Pose.processSitups 100 poseShift es0 = es0 ∧
    Sim.processPushups 100 poseShift es0Sim = es0Sim ∧
    Pose.processPushups 1500 poseShift (Pose.processPushups 1000 poseShift es0) =
      Pose.processPushups 1000 poseShift es0 ∧
    Pose.processSquats 1500 poseShift (Pose.processSquats 1000 poseShift es0) =
      Pose.processSquats 1000 poseShift es0 ∧
    Pose.processSitups 1500 poseShift (Pose.processSitups 1000 poseShift es0) =
      Pose.processSitups 1000 poseShift es0 ∧
    Sim.processPushups 1500 poseShift (Sim.processPushups 1000 poseShift es0Sim) =
      Sim.processPushups 1000 poseShift es0Sim := by
  refine ⟨C5_debounce.1 100 poseShift es0 (by decide),
    C5_debounce.2.1 100 poseShift es0 (by decide),
    C5_debounce.2.2.1 100 poseShift es0 (by decide),
    C5_debounce.2.2.2.1 100 poseShift es0Sim (by decide),
    C5_debounce.2.2.2.2.1 1000 1500 poseShift poseShift es0 (by decide) ?_,
    C5_debounce.2.2.2.2.2.1 1000 1500 poseShift poseShift es0 (by decide) ?_,
    C5_debounce.2.2.2.2.2.2.1 1000 1500 poseShift poseShift es0 (by decide) ?_,
    C5_debounce.2.2.2.2.2.2.2 1000 1500 poseShift poseShift es0Sim (by decide) ?_⟩
  · rw [eval_pushups_phase]; decide
  · rw [eval_squats_phase]; decide
  · rw [eval_situps_phase]; decide
  · rw [eval_sim_pushups_phase]; decide

namespace Challenge

/-- `ExerciseBaseline` (challengeSlice.ts lines 3-8); all counts are JS
integers, modelled as ℤ. -/
structure ExerciseBaseline where
  pushups : ℤ
  squats : ℤ
  situps : ℤ
  planks : ℤ
deriving DecidableEq

/-- One per-exercise record of a `DailyProgress` (challengeSlice.ts lines
13-18). The optional `actual` field is `actualReps` for pushups, squats
and situps and `actualSeconds` for planks; the shape is identical. -/
structure Entry where
  target : ℤ
  completed : Bool
  actual : Option ℤ
deriving DecidableEq

/-- `DailyProgress` (challengeSlice.ts lines 10-20). Dates are integer day
numbers standing for the YYYY-MM-DD strings. -/
structure DailyProgress where
  date : ℤ
  day : ℤ
  pushups : Entry
  squats : Entry
  situps : Entry
  planks : Entry
  allCompleted : Bool
deriving DecidableEq

/-- `ChallengeState` (challengeSlice.ts lines 22-33). The
`dailyProgress` record is the date-keyed map. -/
structure ChallengeState where
  isActive : Bool
  startDate : Option ℤ
  currentDay : ℤ
  baselines : ExerciseBaseline
  currentStreak : ℤ
  bestStreak : ℤ
  totalDaysCompleted : ℤ
  dailyProgress : ℤ → Option DailyProgress
  lastCompletedDate : Option ℤ
  challengeCompleted : Bool

/-- `initialState` (challengeSlice.ts lines 35-51). -/
def initialState : ChallengeState :=
  { isActive := false
    startDate := none
    currentDay := 1
    baselines := ⟨10, 15, 10, 30⟩
    currentStreak := 0
    bestStreak := 0
    totalDaysCompleted := 0
    dailyProgress := fun _ => none
    lastCompletedDate := none
    challengeCompleted := false }

/-- `createDailyProgress` (challengeSlice.ts lines 203-231): targets are
`baseline + (day - 1)` for the three rep exercises and
`baseline + (day - 1) * 5` seconds for planks. -/
def createDailyProgress (date : ℤ) (day : ℤ) (baselines : ExerciseBaseline) :
    DailyProgress :=
  { date := date
    day := day
    pushups := ⟨baselines.pushups + (day - 1), false, none⟩
    squats := ⟨baselines.squats + (day - 1), false, none⟩
    situps := ⟨baselines.situps + (day - 1), false, none⟩
    planks := ⟨baselines.planks + (day - 1) * 5, false, none⟩
    allCompleted := false }

/-- `startChallenge` (challengeSlice.ts lines 57-76); `today` is the
wall-clock date at dispatch time. -/
def startChallenge (today : ℤ) (baselines : ExerciseBaseline) : ChallengeState :=
  { isActive := true
    startDate := some today
    currentDay := 1
    baselines := baselines
    currentStreak := 0
    bestStreak := 0
    totalDaysCompleted := 0
    dailyProgress := fun d =>
      if d = today then some (createDailyProgress today 1 baselines) else none
    lastCompletedDate := none
    challengeCompleted := false }

/-- The in-place exercise marking of `completeExercise` (challengeSlice.ts
lines 99-106): set `completed` and store the actual count. -/
def markExercise (p : DailyProgress) (exerciseType : ExerciseType)
    (actualCount : ℤ) : DailyProgress :=
  match exerciseType with
  | ExerciseType.pushups => { p with pushups := ⟨p.pushups.target, true, some actualCount⟩ }
  | ExerciseType.squats => { p with squats := ⟨p.squats.target, true, some actualCount⟩ }
  | ExerciseType.situps => { p with situps := ⟨p.situps.target, true, some actualCount⟩ }
  | ExerciseType.planks => { p with planks := ⟨p.planks.target, true, some actualCount⟩ }

/-- Lines 88-97 of `completeExercise`: the record for `today`, created
lazily from the current day and baselines when absent. -/
def ensureTodayProgress (s : ChallengeState) (today : ℤ) : DailyProgress :=
  match s.dailyProgress today with
  | some p => p
  | none => createDailyProgress today s.currentDay s.baselines

/-- Lines 108-111 of `completeExercise`:
`Object.values(todayProgress.exercises).every((ex) => ex.completed)`. -/
def allCompletedOf (p : DailyProgress) : Bool :=
  p.pushups.completed && p.squats.completed && p.situps.completed && p.planks.completed

/-- `completeExercise` (challengeSlice.ts lines 78-143); `today` is the
wall-clock date at dispatch time, so the "yesterday" below is
`today - 1`.

The statement order of the source is kept faithfully: line 116 assigns
`state.lastCompletedDate = today` BEFORE lines 124-127 compare
`state.lastCompletedDate` against the yesterday string, so that
comparison reads the date just assigned. -/
def completeExercise (today : ℤ) (exerciseType : ExerciseType)
    (actualCount : ℤ) (s : ChallengeState) : ChallengeState :=
  -- lines 88-97: ensure the record for today exists
  let todayProgress0 := ensureTodayProgress s today
  -- lines 99-106: mark the exercise completed
  let p1 := markExercise todayProgress0 exerciseType actualCount
  -- lines 108-112: recompute allCompleted from the four flags
  let allCompleted := allCompletedOf p1
  let p2 := { p1 with allCompleted := allCompleted }
  let s1 := { s with dailyProgress := fun d =>
    if d = today then some p2 else s.dailyProgress d }
  -- line 114: guard on the PREVIOUS lastCompletedDate
  if allCompleted ∧ s.lastCompletedDate ≠ some today then
    -- lines 116-117
    let s2 := { s1 with
      lastCompletedDate := some today
      totalDaysCompleted := s1.totalDaysCompleted + 1 }
    -- lines 120-122: yesterday, from the wall clock
    let yesterday := today - 1
    -- lines 124-131: the comparison reads the lastCompletedDate just
    -- assigned on line 116
    let s3 :=
      if s2.lastCompletedDate = some yesterday ∨ s2.currentStreak = 0 then
        { s2 with currentStreak := s2.currentStreak + 1 }
      else
        { s2 with currentStreak := 1 }
    -- lines 134-136
    let s4 :=
      if s3.bestStreak < s3.currentStreak then
        { s3 with bestStreak := s3.currentStreak }
      else s3
    -- lines 139-141
    if 75 ≤ s4.currentDay then { s4 with challengeCompleted := true } else s4
  else s1

/-- `advanceDay` (challengeSlice.ts lines 145-157); `today` is the
wall-clock date at dispatch time. -/
def advanceDay (today : ℤ) (s : ChallengeState) : ChallengeState :=
  if s.currentDay < 75 then
    let s1 := { s with currentDay := s.currentDay + 1 }
    { s1 with dailyProgress := fun d =>
      if d = today then some (createDailyProgress today s1.currentDay s1.baselines)
      else s1.dailyProgress d }
  else s

/-- `resetChallenge` (challengeSlice.ts lines 159-161). -/
def resetChallenge (_s : ChallengeState) : ChallengeState := initialState

/-- `updateBaselines` (challengeSlice.ts lines 163-177). -/
def updateBaselines (today : ℤ) (baselines : ExerciseBaseline)
    (s : ChallengeState) : ChallengeState :=
  let s1 := { s with baselines := baselines }
  if s1.isActive then
    match s1.dailyProgress today with
    | some _ =>
      { s1 with dailyProgress := fun d =>
        if d = today then some (createDailyProgress today s1.currentDay baselines)
        else s1.dailyProgress d }
    | none => s1
  else s1

/-- Milliseconds per day, the divisor of `syncCurrentDay`. -/
def msPerDay : ℤ := 1000 * 60 * 60 * 24

/-- The calendar date (integer day number) of a millisecond timestamp:
JS `toISOString().split("T")[0]`, a floor division by `msPerDay` (the
Lean integer division is Euclidean, which for a positive divisor is
floor division). -/
def dateOf (t : ℤ) : ℤ := t / msPerDay

/-- `syncCurrentDay` (challengeSlice.ts lines 180-198); `t` is the
wall-clock timestamp in milliseconds. `new Date(startDate)` is UTC
midnight of the stored date, i.e. `startDate * msPerDay`. -/
def syncCurrentDay (t : ℤ) (s : ChallengeState) : ChallengeState :=
  match s.startDate with
  | none => s
  | some startDate =>
    if s.isActive then
      let diffTime := t - startDate * msPerDay
      let diffDays := diffTime / msPerDay + 1
      let s1 := { s with currentDay := min diffDays 75 }
      let todayStr := dateOf t
      match s1.dailyProgress todayStr with
      | some _ => s1
      | none =>
        { s1 with dailyProgress := fun d =>
          if d = todayStr then some (createDailyProgress todayStr s1.currentDay s1.baselines)
          else s1.dailyProgress d }
    else s

end Challenge

namespace Challenge

/-- C4: a `DailyProgress` created for day d from baselines b has target
`b[exercise] + (d - 1)` for pushups, squats and situps and
`b[planks] + (d - 1) * 5` for planks; in particular with baseline
pushups 10 the day-75 pushup target is 84 and with baseline planks 30
the day-75 plank target is 400. -/
theorem C4_target_formula :
    (∀ (date day : ℤ) (b : ExerciseBaseline),
      (createDailyProgress date day b).pushups.target = b.pushups + (day - 1) ∧
      (createDailyProgress date day b).squats.target = b.squats + (day - 1) ∧
      (createDailyProgress date day b).situps.target = b.situps + (day - 1) ∧
      (createDailyProgress date day b).planks.target = b.planks + (day - 1) * 5) ∧
    (∀ (date x y : ℤ),
      (createDailyProgress date 75 ⟨10, x, y, 30⟩).pushups.target = 84 ∧
      (createDailyProgress date 75 ⟨10, x, y, 30⟩).planks.target = 400) := by
  constructor
  · intro date day b
    exact ⟨rfl, rfl, rfl, rfl⟩
  · intro date x y
    constructor <;> norm_num [createDailyProgress]

/-- The default baselines of `initialState`. -/
def b0 : ExerciseBaseline := ⟨10, 15, 10, 30⟩

/-- Completing all four exercises of one date, in order. -/
def dayComplete (today : ℤ) (s : ChallengeState) : ChallengeState :=
  completeExercise today ExerciseType.planks 60
    (completeExercise today ExerciseType.situps 12
      (completeExercise today ExerciseType.squats 16
        (completeExercise today ExerciseType.pushups 11 s)))

/-- C1 exhibit: starting on date 0 and completing all four exercises on
date 0 and again on the consecutive date 1 leaves `currentStreak` at 1
after BOTH day completions (each day is counted: `totalDaysCompleted`
is 2), where the claim expects the second consecutive completion to
yield streak 2. Cause: challengeSlice.ts line 116 assigns
`state.lastCompletedDate = today` before lines 124-127 compare
`state.lastCompletedDate` to yesterday, so the continue branch can only
fire when `currentStreak` is 0 and every day completion resets the
streak to 1. -/
theorem C1_streak_reset_bug :
    (dayComplete 0 (startChallenge 0 b0)).currentStreak = 1 ∧
    (dayComplete 1 (dayComplete 0 (startChallenge 0 b0))).totalDaysCompleted = 2 ∧
    (dayComplete 1 (dayComplete 0 (startChallenge 0 b0))).currentStreak = 1 := by
  decide

/-- C2: if the record of `today` is already fully completed (hence
`lastCompletedDate` is `today`), a further `completeExercise` for that
date changes none of `totalDaysCompleted`, `currentStreak`,
`bestStreak`. -/
theorem C2_idempotent_completion (today : ℤ) (exerciseType : ExerciseType)
    (actualCount : ℤ) (s : ChallengeState) (p : DailyProgress)
    (_hp : s.dailyProgress today = some p) (_hall : p.allCompleted = true)
    (hl : s.lastCompletedDate = some today) :
    (completeExercise today exerciseType actualCount s).totalDaysCompleted =
      s.totalDaysCompleted ∧
    (completeExercise today exerciseType actualCount s).currentStreak =
      s.currentStreak ∧
    (completeExercise today exerciseType actualCount s).bestStreak =
      s.bestStreak := by
  simp only [completeExercise]
  rw [if_neg (fun h => h.2 hl)]
  exact ⟨rfl, rfl, rfl⟩

/-- A concrete fully-completed day-1 record for date 0. -/
def pDone : DailyProgress :=
  { date := 0
    day := 1
    pushups := ⟨10, true, some 10⟩
    squats := ⟨15, true, some 16⟩
    situps := ⟨10, true, some 12⟩
    planks := ⟨30, true, some 60⟩
    allCompleted := true }

/-- A concrete state in which date 0 is fully completed. -/
def sDone : ChallengeState :=
  { isActive := true
    startDate := some 0
    currentDay := 1
    baselines := b0
    currentStreak := 1
    bestStreak := 1
    totalDaysCompleted := 1
    dailyProgress := fun d => if d = 0 then some pDone else none
    lastCompletedDate := some 0
    challengeCompleted := false }

/-- Witness for C2 at the concrete completed state. -/
theorem C2_idempotent_completion_witness :
    (completeExercise 0 ExerciseType.pushups 12 sDone).totalDaysCompleted =
      sDone.totalDaysCompleted ∧
    (completeExercise 0 ExerciseType.pushups 12 sDone).currentStreak =
      sDone.currentStreak ∧
    (completeExercise 0 ExerciseType.pushups 12 sDone).bestStreak =
      sDone.bestStreak :=
  C2_idempotent_completion 0 ExerciseType.pushups 12 sDone pDone rfl rfl rfl

end Challenge

namespace Challenge

/-- Marking an exercise never changes any target. -/
theorem markExercise_targets (p : DailyProgress) (ex : ExerciseType) (c : ℤ) :
    (markExercise p ex c).pushups.target = p.pushups.target ∧
    (markExercise p ex c).squats.target = p.squats.target ∧
    (markExercise p ex c).situps.target = p.situps.target ∧
    (markExercise p ex c).planks.target = p.planks.target := by
  cases ex <;> exact ⟨rfl, rfl, rfl, rfl⟩

/-- Marking an exercise leaves the pushup entry alone unless it is the
pushup entry. -/
theorem markExercise_other_pushups (p : DailyProgress) (ex : ExerciseType) (c : ℤ)
    (h : ex ≠ ExerciseType.pushups) : (markExercise p ex c).pushups = p.pushups := by
  cases ex <;> first | exact absurd rfl h | rfl

/-- Marking an exercise leaves the squat entry alone unless it is the
squat entry. -/
theorem markExercise_other_squats (p : DailyProgress) (ex : ExerciseType) (c : ℤ)
    (h : ex ≠ ExerciseType.squats) : (markExercise p ex c).squats = p.squats := by
  cases ex <;> first | exact absurd rfl h | rfl

/-- Marking an exercise leaves the situp entry alone unless it is the
situp entry. -/
theorem markExercise_other_situps (p : DailyProgress) (ex : ExerciseType) (c : ℤ)
    (h : ex ≠ ExerciseType.situps) : (markExercise p ex c).situps = p.situps := by
  cases ex <;> first | exact absurd rfl h | rfl

/-- Marking an exercise leaves the plank entry alone unless it is the
plank entry. -/
theorem markExercise_other_planks (p : DailyProgress) (ex : ExerciseType) (c : ℤ)
    (h : ex ≠ ExerciseType.planks) : (markExercise p ex c).planks = p.planks := by
  cases ex <;> first | exact absurd rfl h | rfl

/-- The map entry `completeExercise` writes for `today` when a record
already exists. -/
theorem completeExercise_today_lookup (today : ℤ) (ex : ExerciseType) (c : ℤ)
    (s : ChallengeState) (p : DailyProgress) (hp : s.dailyProgress today = some p) :
    (completeExercise today ex c s).dailyProgress today =
      some { markExercise p ex c with
        allCompleted := allCompletedOf (markExercise p ex c) } := by
  simp only [completeExercise, ensureTodayProgress, hp]
  split_ifs <;> simp

/-- `completeExercise` leaves the records of all other dates untouched. -/
theorem completeExercise_other_dates (today : ℤ) (ex : ExerciseType) (c : ℤ)
    (s : ChallengeState) (d : ℤ) (hd : d ≠ today) :
    (completeExercise today ex c s).dailyProgress d = s.dailyProgress d := by
  simp only [completeExercise]
  split_ifs <;> simp [hd]

/-- C10: `completeExercise` for exercise T on date `today` leaves the
records of all other dates unchanged, and when a record for `today`
already exists it keeps all four targets and the entries of the three
exercises other than T unchanged. -/
theorem C10_frame_effect (today : ℤ) (ex : ExerciseType) (c : ℤ)
    (s : ChallengeState) :
    (∀ d : ℤ, d ≠ today →
      (completeExercise today ex c s).dailyProgress d = s.dailyProgress d) ∧
    (∀ p : DailyProgress, s.dailyProgress today = some p →
      ∃ q : DailyProgress,
        (completeExercise today ex c s).dailyProgress today = some q ∧
        q.pushups.target = p.pushups.target ∧
        q.squats.target = p.squats.target ∧
        q.situps.target = p.situps.target ∧
        q.planks.target = p.planks.target ∧
        (ex ≠ ExerciseType.pushups → q.pushups = p.pushups) ∧
        (ex ≠ ExerciseType.squats → q.squats = p.squats) ∧
        (ex ≠ ExerciseType.situps → q.situps = p.situps) ∧
        (ex ≠ ExerciseType.planks → q.planks = p.planks)) := by
  constructor
  · intro d hd
    exact completeExercise_other_dates today ex c s d hd
  · intro p hp
    refine ⟨_, completeExercise_today_lookup today ex c s p hp, ?_, ?_, ?_, ?_,
      ?_, ?_, ?_, ?_⟩
    · exact (markExercise_targets p ex c).1
    · exact (markExercise_targets p ex c).2.1
    · exact (markExercise_targets p ex c).2.2.1
    · exact (markExercise_targets p ex c).2.2.2
    · exact fun h => markExercise_other_pushups p ex c h
    · exact fun h => markExercise_other_squats p ex c h
    · exact fun h => markExercise_other_situps p ex c h
    · exact fun h => markExercise_other_planks p ex c h

/-- Witness for C10 at the concrete completed state. -/
theorem C10_frame_effect_witness :
    (completeExercise 0 ExerciseType.pushups 12 sDone).dailyProgress 5 =
      sDone.dailyProgress 5 ∧
    (∃ q : DailyProgress,
      (completeExercise 0 ExerciseType.pushups 12 sDone).dailyProgress 0 = some q ∧
      q.pushups.target = pDone.pushups.target ∧
      q.squats.target = pDone.squats.target ∧
      q.situps.target = pDone.situps.target ∧
      q.planks.target = pDone.planks.target ∧
      (ExerciseType.pushups ≠ ExerciseType.pushups → q.pushups = pDone.pushups) ∧
      (ExerciseType.pushups ≠ ExerciseType.squats → q.squats = pDone.squats) ∧
      (ExerciseType.pushups ≠ ExerciseType.situps → q.situps = pDone.situps) ∧
      (ExerciseType.pushups ≠ ExerciseType.planks → q.planks = pDone.planks)) :=
  ⟨(C10_frame_effect 0 ExerciseType.pushups 12 sDone).1 5 (by decide),
   (C10_frame_effect 0 ExerciseType.pushups 12 sDone).2 pDone rfl⟩

end Challenge

namespace Challenge

/-- The engine operations available after `startChallenge` (reset
excluded), each dispatched at a wall-clock timestamp. -/
inductive Op where
  | complete (exerciseType : ExerciseType) (actualCount : ℤ)
  | advance
  | updateB (baselines : ExerciseBaseline)
  | sync

/-- Dispatch one timestamped operation: reducers that read the date use
the date of the timestamp, `syncCurrentDay` uses the timestamp itself. -/
def step (s : ChallengeState) (tp : ℤ × Op) : ChallengeState :=
  match tp.2 with
  | Op.complete exerciseType actualCount =>
    completeExercise (dateOf tp.1) exerciseType actualCount s
  | Op.advance => advanceDay (dateOf tp.1) s
  | Op.updateB baselines => updateBaselines (dateOf tp.1) baselines s
  | Op.sync => syncCurrentDay tp.1 s

/-- A challenge started at timestamp `t0` followed by a sequence of
timestamped operations. -/
def run (t0 : ℤ) (baselines : ExerciseBaseline) (ops : List (ℤ × Op)) :
    ChallengeState :=
  ops.foldl step (startChallenge (dateOf t0) baselines)

/-- `completeExercise` never unsets `challengeCompleted`. -/
theorem completeExercise_completed_mono (today : ℤ) (ex : ExerciseType) (c : ℤ)
    (s : ChallengeState) (h : s.challengeCompleted = true) :
    (completeExercise today ex c s).challengeCompleted = true := by
  simp only [completeExercise]
  split_ifs <;> simp [h]

/-- `advanceDay` never changes `challengeCompleted`. -/
theorem advanceDay_completed (today : ℤ) (s : ChallengeState) :
    (advanceDay today s).challengeCompleted = s.challengeCompleted := by
  simp only [advanceDay]
  split_ifs <;> rfl

/-- `updateBaselines` never changes `challengeCompleted`. -/
theorem updateBaselines_completed (today : ℤ) (b : ExerciseBaseline)
    (s : ChallengeState) :
    (updateBaselines today b s).challengeCompleted = s.challengeCompleted := by
  simp only [updateBaselines]
  split_ifs
  · cases hq : s.dailyProgress today <;> simp [hq]
  · rfl

/-- `syncCurrentDay` never changes `challengeCompleted`. -/
theorem syncCurrentDay_completed (t : ℤ) (s : ChallengeState) :
    (syncCurrentDay t s).challengeCompleted = s.challengeCompleted := by
  simp only [syncCurrentDay]
  cases hs : s.startDate
  · rfl
  · split_ifs
    · cases hq : s.dailyProgress (dateOf t) <;> simp [hq]
    · rfl

/-- If a `completeExercise` call flips `challengeCompleted` from false to
true, then the current day counter was at least 75, the date being
completed was not already `lastCompletedDate`, and the marked record is
fully completed. -/
theorem completeExercise_flip (today : ℤ) (ex : ExerciseType) (c : ℤ)
    (s : ChallengeState) (h0 : s.challengeCompleted = false)
    (h1 : (completeExercise today ex c s).challengeCompleted = true) :
    75 ≤ s.currentDay ∧ s.lastCompletedDate ≠ some today ∧
    allCompletedOf (markExercise (ensureTodayProgress s today) ex c) = true := by
  simp only [completeExercise] at h1
  split_ifs at h1 with hg h2 h3 h75 h4 h5 h6 h7
  all_goals first
    | exact ⟨by assumption, hg.2, hg.1⟩
    | simp [h0] at h1

end Challenge

namespace Challenge

/-- The record `completeExercise` stores for `today`, in general. -/
theorem completeExercise_today_always (today : ℤ) (ex : ExerciseType) (c : ℤ)
    (s : ChallengeState) :
    (completeExercise today ex c s).dailyProgress today =
      some { markExercise (ensureTodayProgress s today) ex c with
             allCompleted := allCompletedOf (markExercise (ensureTodayProgress s today) ex c) } := by
  simp only [completeExercise]
  split_ifs <;> simp

/-- One dispatched operation never unsets `challengeCompleted`. -/
theorem step_completed_mono (s : ChallengeState) (tp : ℤ × Op)
    (h : s.challengeCompleted = true) : (step s tp).challengeCompleted = true := by
  rcases tp with ⟨t, op⟩
  cases op with
  | complete ex c => exact completeExercise_completed_mono (dateOf t) ex c s h
  | advance => simp [step, advanceDay_completed, h]
  | updateB b => simp [step, updateBaselines_completed, h]
  | sync => simp [step, syncCurrentDay_completed, h]

/-- C9: `challengeCompleted` flips from false to true only on a
`completeExercise` call made with the day counter at 75 (by C8 it is
exactly 75) for a date not already recorded as `lastCompletedDate`,
whose marked record is fully completed; and once true it stays true
under every further `completeExercise`, `advanceDay`, `updateBaselines`
and `syncCurrentDay` (only the explicit reset reverts it). -/
theorem C9_terminal_completion :
    (∀ (today : ℤ) (ex : ExerciseType) (c : ℤ) (s : ChallengeState),
      s.challengeCompleted = true →
      (completeExercise today ex c s).challengeCompleted = true) ∧
    (∀ (today : ℤ) (s : ChallengeState),
      (advanceDay today s).challengeCompleted = s.challengeCompleted) ∧
    (∀ (today : ℤ) (b : ExerciseBaseline) (s : ChallengeState),
      (updateBaselines today b s).challengeCompleted = s.challengeCompleted) ∧
    (∀ (t : ℤ) (s : ChallengeState),
      (syncCurrentDay t s).challengeCompleted = s.challengeCompleted) ∧
    (∀ (today : ℤ) (ex : ExerciseType) (c : ℤ) (s : ChallengeState),
      s.challengeCompleted = false →
      (completeExercise today ex c s).challengeCompleted = true →
      75 ≤ s.currentDay ∧ s.lastCompletedDate ≠ some today ∧
      ∃ q : DailyProgress,
        (completeExercise today ex c s).dailyProgress today = some q ∧
        q.allCompleted = true) ∧
    (∀ (ops : List (ℤ × Op)) (s : ChallengeState),
      s.challengeCompleted = true →
      (ops.foldl step s).challengeCompleted = true) := by
  refine ⟨completeExercise_completed_mono, advanceDay_completed,
    updateBaselines_completed, syncCurrentDay_completed, ?_, ?_⟩
  · intro today ex c s h0 h1
    obtain ⟨h75, hneq, hall⟩ := completeExercise_flip today ex c s h0 h1
    exact ⟨h75, hneq, ⟨_, completeExercise_today_always today ex c s, hall⟩⟩
  · intro ops
    induction ops with
    | nil => intro s h; exact h
    | cons tp rest ih => intro s h; exact ih _ (step_completed_mono s tp h)

/-- A day-75 record for date 0 with only pushups missing. -/
def p75 : DailyProgress :=
  { date := 0
    day := 75
    pushups := ⟨84, false, none⟩
    squats := ⟨89, true, some 90⟩
    situps := ⟨84, true, some 85⟩
    planks := ⟨400, true, some 400⟩
    allCompleted := false }

/-- A concrete active state on day 75 with only pushups missing for the
date 0 and yesterday recorded as the last completed date. -/
def s75 : ChallengeState :=
  { isActive := true
    startDate := some (-74)
    currentDay := 75
    baselines := b0
    currentStreak := 1
    bestStreak := 1
    totalDaysCompleted := 74
    dailyProgress := fun d => if d = 0 then some p75 else none
    lastCompletedDate := some (-1)
    challengeCompleted := false }

/-- Witness for C9 at concrete inputs: completing the last exercise on
day 75 flips `challengeCompleted`, and the flag persists under each
operation from a completed state. -/
theorem C9_terminal_completion_witness :
    (completeExercise 1 ExerciseType.squats 90 { s75 with challengeCompleted := true }).challengeCompleted = true ∧
    (advanceDay 0 s75).challengeCompleted = s75.challengeCompleted ∧
    (updateBaselines 0 b0 s75).challengeCompleted = s75.challengeCompleted ∧
    (syncCurrentDay 12345 s75).challengeCompleted = s75.challengeCompleted ∧
    (75 ≤ s75.currentDay ∧ s75.lastCompletedDate ≠ some 0 ∧
      ∃ q : DailyProgress,
        (completeExercise 0 ExerciseType.pushups 84 s75).dailyProgress 0 = some q ∧
        q.allCompleted = true) ∧
    (([((0 : ℤ), Op.advance)]).foldl step { s75 with challengeCompleted := true }).challengeCompleted = true := by
  refine ⟨C9_terminal_completion.1 1 ExerciseType.squats 90 _ rfl,
    C9_terminal_completion.2.1 0 s75,
    C9_terminal_completion.2.2.1 0 b0 s75,
    C9_terminal_completion.2.2.2.1 12345 s75,
    C9_terminal_completion.2.2.2.2.1 0 ExerciseType.pushups 84 s75 rfl (by decide),
    C9_terminal_completion.2.2.2.2.2 [((0 : ℤ), Op.advance)] _ rfl⟩

end Challenge

namespace Challenge

/-- `completeExercise` touches neither `isActive`, `startDate` nor
`currentDay`. -/
theorem completeExercise_scalars (today : ℤ) (ex : ExerciseType) (c : ℤ)
    (s : ChallengeState) :
    (completeExercise today ex c s).isActive = s.isActive ∧
    (completeExercise today ex c s).startDate = s.startDate ∧
    (completeExercise today ex c s).currentDay = s.currentDay := by
  simp only [completeExercise]
  split_ifs <;> exact ⟨rfl, rfl, rfl⟩

/-- `advanceDay` increments the day only below 75 and touches neither
`isActive` nor `startDate`. -/
theorem advanceDay_scalars (today : ℤ) (s : ChallengeState) :
    (advanceDay today s).isActive = s.isActive ∧
    (advanceDay today s).startDate = s.startDate ∧
    ((advanceDay today s).currentDay = s.currentDay ∨
      ((advanceDay today s).currentDay = s.currentDay + 1 ∧ s.currentDay < 75)) := by
  simp only [advanceDay]
  split_ifs with h
  · exact ⟨rfl, rfl, Or.inr ⟨rfl, h⟩⟩
  · exact ⟨rfl, rfl, Or.inl rfl⟩

/-- `updateBaselines` touches neither `isActive`, `startDate` nor
`currentDay`. -/
theorem updateBaselines_scalars (today : ℤ) (b : ExerciseBaseline)
    (s : ChallengeState) :
    (updateBaselines today b s).isActive = s.isActive ∧
    (updateBaselines today b s).startDate = s.startDate ∧
    (updateBaselines today b s).currentDay = s.currentDay := by
  simp only [updateBaselines]
  split_ifs
  · cases hq : s.dailyProgress today <;> simp [hq]
  · exact ⟨rfl, rfl, rfl⟩

/-- On an active state whose recorded start date, at UTC midnight, is no
later than the dispatch timestamp, `syncCurrentDay` puts `currentDay`
into `[1, 75]` and touches neither `isActive` nor `startDate`. -/
theorem syncCurrentDay_inv (t : ℤ) (s : ChallengeState) (sd : ℤ)
    (hact : s.isActive = true) (hsd : s.startDate = some sd)
    (hml : sd * msPerDay ≤ t) :
    (syncCurrentDay t s).isActive = true ∧
    (syncCurrentDay t s).startDate = some sd ∧
    1 ≤ (syncCurrentDay t s).currentDay ∧
    (syncCurrentDay t s).currentDay ≤ 75 := by
  simp only [syncCurrentDay, hsd]
  rw [if_pos hact]
  have hd : 0 ≤ (t - sd * msPerDay) / msPerDay :=
    Int.ediv_nonneg (by omega) (by norm_num [msPerDay])
  cases hq : s.dailyProgress (dateOf t) <;>
    exact ⟨hact, rfl, le_min (by omega) (by norm_num), min_le_right _ _⟩

/-- The inductive invariant of a running challenge started at timestamp
`t0`: active, the recorded start date is the date of `t0`, and the day
counter is within bounds. -/
def GoodState (t0 : ℤ) (s : ChallengeState) : Prop :=
  s.isActive = true ∧ s.startDate = some (dateOf t0) ∧
  1 ≤ s.currentDay ∧ s.currentDay ≤ 75

/-- The date of a timestamp, scaled back to milliseconds, is no later
than the timestamp. -/
theorem dateOf_mul_le (t : ℤ) : dateOf t * msPerDay ≤ t := by
  have h1 := Int.ediv_add_emod t msPerDay
  have h2 := Int.emod_nonneg t (show msPerDay ≠ 0 by norm_num [msPerDay])
  simp only [dateOf, msPerDay] at h1 h2 ⊢
  norm_num at h1 h2 ⊢
  omega

/-- Each operation dispatched no earlier than the start preserves the
invariant. -/
theorem step_preserves (t0 : ℤ) (s : ChallengeState) (tp : ℤ × Op)
    (ht : t0 ≤ tp.1) (h : GoodState t0 s) : GoodState t0 (step s tp) := by
  obtain ⟨ha, hsd, h1, h75⟩ := h
  rcases tp with ⟨t, op⟩
  cases op with
  | complete ex c =>
    simp only [step]
    obtain ⟨e1, e2, e3⟩ := completeExercise_scalars (dateOf t) ex c s
    exact ⟨e1.trans ha, e2.trans hsd, by omega, by omega⟩
  | advance =>
    simp only [step]
    obtain ⟨e1, e2, e3⟩ := advanceDay_scalars (dateOf t) s
    refine ⟨e1.trans ha, e2.trans hsd, ?_, ?_⟩ <;>
      rcases e3 with e3 | ⟨e3, e4⟩ <;> omega
  | updateB b =>
    simp only [step]
    obtain ⟨e1, e2, e3⟩ := updateBaselines_scalars (dateOf t) b s
    exact ⟨e1.trans ha, e2.trans hsd, by omega, by omega⟩
  | sync =>
    simp only [step]
    have hml : dateOf t0 * msPerDay ≤ t := le_trans (dateOf_mul_le t0) ht
    obtain ⟨e1, e2, e3, e4⟩ := syncCurrentDay_inv t s (dateOf t0) ha hsd hml
    exact ⟨e1, e2, e3, e4⟩

/-- C8: in every state reached from `startChallenge` by a sequence of
`completeExercise`, `advanceDay`, `updateBaselines` and `syncCurrentDay`
operations dispatched no earlier than the start, `1 ≤ currentDay ≤ 75`;
in particular `advanceDay` beyond 75 is silently capped (it leaves the
counter at 75) rather than an error. -/
theorem C8_day_bounds (t0 : ℤ) (baselines : ExerciseBaseline)
    (ops : List (ℤ × Op)) (h : ∀ tp ∈ ops, t0 ≤ tp.1) :
    1 ≤ (run t0 baselines ops).currentDay ∧
    (run t0 baselines ops).currentDay ≤ 75 := by
  have start : GoodState t0 (startChallenge (dateOf t0) baselines) :=
    ⟨rfl, rfl, le_refl 1, show (1 : ℤ) ≤ 75 by norm_num⟩
  have main : ∀ (l : List (ℤ × Op)) (s : ChallengeState),
      (∀ tp ∈ l, t0 ≤ tp.1) → GoodState t0 s → GoodState t0 (l.foldl step s) := by
    intro l
    induction l with
    | nil => intro s _ hs; exact hs
    | cons tp rest ih =>
      intro s hmem hs
      exact ih _ (fun x hx => hmem x (List.mem_cons_of_mem _ hx))
        (step_preserves t0 s tp (hmem tp (List.mem_cons_self _ _)) hs)
  obtain ⟨_, _, hlo, hhi⟩ := main ops _ h start
  exact ⟨hlo, hhi⟩

/-- Witness for C8 on a concrete trace: an advance, a sync three days
later, and a completion. -/
theorem C8_day_bounds_witness :
    1 ≤ (run 0 b0 [(100, Op.advance), (86400000 * 3 + 5, Op.sync),
      (86400000 * 3 + 6, Op.complete ExerciseType.pushups 10)]).currentDay ∧
    (run 0 b0 [(100, Op.advance), (86400000 * 3 + 5, Op.sync),
      (86400000 * 3 + 6, Op.complete ExerciseType.pushups 10)]).currentDay ≤ 75 :=
  C8_day_bounds 0 b0 _ (by decide)

end Challenge
